import Mathlib

/-!
Verification of the timeseries-forecast plugin core
(`python-lib/dku_io_utils` and `python-lib/gluonts_forecasts`).

Shallow embedding conventions:
* Timestamps live on an arithmetic grid and are modelled as integers; a
  frequency (step count + calendar unit) is modelled by its positive integer
  step `d` between consecutive grid points.  `pandas.date_range(start, end, f)`
  for such a fixed-duration frequency is the arithmetic progression from
  `start` to `end` (inclusive) with step `d`.
* A pandas timestamp that may carry a timezone is modelled by `PdTimestamp`
  (a wall-clock value plus an optional timezone tag); `Series.dt.tz_localize(None)`
  drops the tag and keeps the wall-clock value.
* Fallible Python code (functions that `raise`) is modelled with `Except String`,
  the error message being the raised message.
* Python float quantiles are modelled as rationals; Python `round` (banker's
  rounding, round-half-to-even) is modelled exactly by `bankersRound`.
-/

deriving instance DecidableEq for Except

/-! ## Time Grid Validator (`dku_io_utils/dku_checks_utils.py`) -/

/-- The regular grid of `n` timestamps generated from `t0` by stepping with `step`:
the expected shape of a continuous time column. -/
def regularGrid (t0 step : Int) (n : Nat) : List Int :=
  (List.range n).map (fun k : Nat => t0 + (k : Int) * step)

/-- Number of points of `pandas.date_range(start=start, end=stop, freq=step)`:
all grid points from `start` that are `≤ stop`. -/
def rangeCount (start stop step : Int) : Nat :=
  if start ≤ stop then ((stop - start) / step).toNat + 1 else 0

/-- `pandas.date_range(start=start, end=stop, freq=step)` as a list of timestamps. -/
def dateRange (start stop step : Int) : List Int :=
  regularGrid start step (rangeCount start stop step)

/-- `check_continuous_time_column` (dku_checks_utils.py lines 16-28) on the (already
tz-normalized) time column `ts`: build `date_range(ts.iloc[0], ts.iloc[-1], freq)` and
compare lengths and values.  The result is `none` when the column is empty (the Python
code would raise `IndexError` at `iloc[0]`), otherwise `some` of the returned Bool. -/
def check_continuous_time_column (ts : List Int) (step : Int) : Option Bool :=
  if ts = [] then none
  else
    let start_date := ts.headD 0
    let end_date := ts.getLastD 0
    let grid := dateRange start_date end_date step
    some (decide (grid.length = ts.length) && decide (ts = grid))

theorem regularGrid_length (t0 step : Int) (n : Nat) :
    (regularGrid t0 step n).length = n := by
  rw [regularGrid, List.length_map, List.length_range]

theorem regularGrid_ne_nil (t0 step : Int) {n : Nat} (hn : 1 ≤ n) :
    regularGrid t0 step n ≠ [] := by
  intro h
  have := regularGrid_length t0 step n
  rw [h] at this
  simp at this
  omega

theorem regularGrid_concat (t0 step : Int) (n : Nat) :
    regularGrid t0 step (n + 1) = regularGrid t0 step n ++ [t0 + (n : Int) * step] := by
  simp [regularGrid, List.range_succ]

theorem regularGrid_headD (t0 step : Int) (n : Nat) (hn : 1 ≤ n) (x : Int) :
    (regularGrid t0 step n).headD x = t0 := by
  obtain ⟨m, rfl⟩ : ∃ m, n = m + 1 := ⟨n - 1, by omega⟩
  simp [regularGrid, List.range_succ_eq_map]

theorem regularGrid_getLastD (t0 step : Int) (n : Nat) (hn : 1 ≤ n) (x : Int) :
    (regularGrid t0 step n).getLastD x = t0 + ((n : Int) - 1) * step := by
  obtain ⟨m, rfl⟩ : ∃ m, n = m + 1 := ⟨n - 1, by omega⟩
  rw [regularGrid_concat, List.getLastD_concat]
  push_cast
  ring_nf

theorem regularGrid_getElem (t0 step : Int) (n : Nat) (i : Nat)
    (h : i < (regularGrid t0 step n).length) :
    (regularGrid t0 step n)[i] = t0 + (i : Int) * step := by
  unfold regularGrid at h ⊢
  rw [List.getElem_map, List.getElem_range]

theorem regularGrid_nodup (t0 : Int) {step : Int} (hd : step ≠ 0) (n : Nat) :
    (regularGrid t0 step n).Nodup := by
  unfold regularGrid
  refine List.Nodup.map ?_ (List.nodup_range n)
  intro k1 k2 hk
  have h2 : (k1 : Int) * step = (k2 : Int) * step := by
    have := add_left_cancel hk
    exact this
  have h3 : (k1 : Int) = k2 := mul_right_cancel₀ hd h2
  exact_mod_cast h3

/-- Characterization direction used for all rejection results: if the validator
returns `some true` then the column is exactly some regular grid at that step. -/
theorem check_eq_some_true_imp {ts : List Int} {step : Int}
    (h : check_continuous_time_column ts step = some true) :
    ∃ t0 n, ts = regularGrid t0 step n := by
  unfold check_continuous_time_column at h
  by_cases hne : ts = []
  · simp [hne] at h
  · simp only [hne, if_false, Option.some_inj, Bool.and_eq_true, decide_eq_true_eq] at h
    exact ⟨ts.headD 0, rangeCount (ts.headD 0) (ts.getLastD 0) step, h.2⟩

/-- The validator accepts every nonempty regular grid at its own step. -/
theorem check_accepts_regularGrid (t0 : Int) {step : Int} (hd : 0 < step)
    {n : Nat} (hn : 1 ≤ n) :
    check_continuous_time_column (regularGrid t0 step n) step = some true := by
  have hne := regularGrid_ne_nil t0 step hn
  unfold check_continuous_time_column
  simp only [hne, if_false, Option.some_inj]
  rw [regularGrid_headD t0 step n hn, regularGrid_getLastD t0 step n hn]
  have hcount : rangeCount t0 (t0 + ((n : Int) - 1) * step) step = n := by
    unfold rangeCount
    have hle : t0 ≤ t0 + ((n : Int) - 1) * step := by
      have : (0 : Int) ≤ ((n : Int) - 1) * step := by
        apply mul_nonneg _ (le_of_lt hd)
        omega
      omega
    rw [if_pos hle]
    have : t0 + ((n : Int) - 1) * step - t0 = ((n : Int) - 1) * step := by ring
    rw [this, Int.mul_ediv_cancel _ (ne_of_gt hd)]
    omega
  rw [dateRange, hcount]
  simp

/-- If the validator returns anything on a nonempty column, it returns `some` of a Bool. -/
theorem check_isSome_of_ne_nil {ts : List Int} (hne : ts ≠ []) (step : Int) :
    ∃ c, check_continuous_time_column ts step = some c := by
  unfold check_continuous_time_column
  simp [hne]

theorem check_rejects_of_not_grid {ts : List Int} {step : Int} (hne : ts ≠ [])
    (hng : ∀ t0 n, ts ≠ regularGrid t0 step n) :
    check_continuous_time_column ts step = some false := by
  obtain ⟨c, hc⟩ := check_isSome_of_ne_nil hne step
  cases c with
  | false => exact hc
  | true =>
      obtain ⟨t0, n, hgrid⟩ := check_eq_some_true_imp hc
      exact absurd hgrid (hng t0 n)


theorem regularGrid_getElem? (t0 step : Int) {n i : Nat} (h : i < n) :
    (regularGrid t0 step n)[i]? = some (t0 + (i : Int) * step) := by
  have hl : i < (regularGrid t0 step n).length := by rw [regularGrid_length]; exact h
  rw [List.getElem?_eq_getElem hl, regularGrid_getElem]

/-- C1: the Time Grid Validator accepts every nonempty sequence that is exactly the
regular grid generated from its first timestamp at the given frequency for its length;
it rejects every sequence obtained from such a grid by duplicating a timestamp, by
shifting one timestamp off the (infinite) grid (for grids of length at least 2), or by
dropping one interior timestamp.  (Dropping the first or last timestamp instead yields
a shorter regular grid, which the Validator accepts — see the counterexample.) -/
theorem C1_time_grid_validator (t0 d : Int) (n : Nat) (hd : 0 < d) :
    (1 ≤ n → check_continuous_time_column (regularGrid t0 d n) d = some true)
    ∧ (∀ (a : List Int) (x : Int) (b : List Int),
        check_continuous_time_column (a ++ x :: x :: b) d = some false)
    ∧ (∀ (j : Nat) (s : Int), 2 ≤ n → j < n → (∀ k : Nat, s ≠ t0 + (k : Int) * d) →
        check_continuous_time_column ((regularGrid t0 d n).set j s) d = some false)
    ∧ (∀ j : Nat, 0 < j → j + 1 < n →
        check_continuous_time_column
          ((regularGrid t0 d n).take j ++ (regularGrid t0 d n).drop (j + 1)) d
          = some false) := by
  refine ⟨fun hn => check_accepts_regularGrid t0 hd hn, ?_, ?_, ?_⟩
  · -- duplicated timestamp: the column is no longer duplicate-free, but every
    -- regular grid with a nonzero step is.
    intro a x b
    apply check_rejects_of_not_grid (by simp)
    intro t0' n' heq
    have hnd : (a ++ x :: x :: b).Nodup := heq ▸ regularGrid_nodup t0' (ne_of_gt hd) n'
    have := hnd.of_append_right
    rw [List.nodup_cons] at this
    exact this.1 (List.mem_cons_self x b)
  · -- one timestamp shifted off the grid
    intro j s h2 hj hs
    have hlen_r : ((regularGrid t0 d n).set j s).length = n := by
      rw [List.length_set, regularGrid_length]
    apply check_rejects_of_not_grid
    · intro hnil
      rw [hnil] at hlen_r
      simp at hlen_r
      omega
    intro t0' n' heq
    have hn' : n' = n := by
      have := congrArg List.length heq
      rw [hlen_r, regularGrid_length] at this
      omega
    rw [hn'] at heq
    have hq : ∀ i : Nat, ((regularGrid t0 d n).set j s)[i]? = (regularGrid t0' d n)[i]? :=
      fun i => congrArg (fun l => l[i]?) heq
    by_cases hj0 : j = 0
    · subst hj0
      have g0 := hq 0
      have g1 := hq 1
      rw [List.getElem?_set, if_pos rfl, if_pos (by rw [regularGrid_length]; omega),
        regularGrid_getElem? t0' d (by omega : 0 < n)] at g0
      rw [List.getElem?_set, if_neg (by omega),
        regularGrid_getElem? t0 d (by omega : 1 < n),
        regularGrid_getElem? t0' d (by omega : 1 < n)] at g1
      have e0 : s = t0' := by
        have := Option.some.inj g0
        simpa using this
      have e1 : t0 = t0' := by
        have := Option.some.inj g1
        simp only [Nat.cast_one, one_mul] at this
        omega
      apply hs 0
      simp only [Nat.cast_zero, zero_mul, add_zero]
      omega
    · have g0 := hq 0
      have gj := hq j
      rw [List.getElem?_set, if_neg hj0,
        regularGrid_getElem? t0 d (by omega : 0 < n),
        regularGrid_getElem? t0' d (by omega : 0 < n)] at g0
      rw [List.getElem?_set, if_pos rfl, if_pos (by rw [regularGrid_length]; omega),
        regularGrid_getElem? t0' d hj] at gj
      have e0 : t0 = t0' := by
        have := Option.some.inj g0
        simpa using this
      have ej : s = t0' + (j : Int) * d := Option.some.inj gj
      apply hs j
      rw [ej, ← e0]
  · -- one interior timestamp dropped
    intro j hj0 hj1
    have hlen_take : ((regularGrid t0 d n).take j).length = j := by
      rw [List.length_take, regularGrid_length]
      omega
    have hlen_r :
        ((regularGrid t0 d n).take j ++ (regularGrid t0 d n).drop (j + 1)).length = n - 1 := by
      rw [List.length_append, hlen_take, List.length_drop, regularGrid_length]
      omega
    apply check_rejects_of_not_grid
    · intro hnil
      rw [hnil] at hlen_r
      simp at hlen_r
      omega
    intro t0' n' heq
    have hn' : n' = n - 1 := by
      have := congrArg List.length heq
      rw [hlen_r, regularGrid_length] at this
      omega
    rw [hn'] at heq
    have hq : ∀ i : Nat,
        ((regularGrid t0 d n).take j ++ (regularGrid t0 d n).drop (j + 1))[i]?
          = (regularGrid t0' d (n - 1))[i]? :=
      fun i => congrArg (fun l => l[i]?) heq
    have g0 := hq 0
    have gj := hq j
    rw [List.getElem?_append_left (by rw [hlen_take]; omega), List.getElem?_take,
      if_pos hj0, regularGrid_getElem? t0 d (by omega : 0 < n),
      regularGrid_getElem? t0' d (by omega : 0 < n - 1)] at g0
    rw [List.getElem?_append_right (le_of_eq hlen_take), hlen_take, Nat.sub_self,
      List.getElem?_drop, Nat.add_zero, regularGrid_getElem? t0 d (by omega : j + 1 < n),
      regularGrid_getElem? t0' d (by omega : j < n - 1)] at gj
    have e0 : t0 = t0' := by
      have := Option.some.inj g0
      simpa using this
    have ej := Option.some.inj gj
    rw [← e0] at ej
    have ej2 : ((j : Int) + 1) * d = (j : Int) * d := by
      have := add_left_cancel ej
      push_cast at this
      exact this
    have : (j : Int) + 1 = (j : Int) := mul_right_cancel₀ (ne_of_gt hd) ej2
    omega

/-- C1 counterexample to the claim as stated: dropping the last timestamp of the
3-point regular grid `[0, 2, 4]` (step 2) yields `[0, 2]`, a shorter regular grid
that `check_continuous_time_column` accepts instead of rejecting. -/
theorem C1_drop_last_accepted :
    (regularGrid 0 2 3).take 2 ++ (regularGrid 0 2 3).drop 3 = regularGrid 0 2 2
    ∧ check_continuous_time_column ((regularGrid 0 2 3).take 2 ++ (regularGrid 0 2 3).drop 3) 2
      = some true := by decide

/-- C1 witness: the amended theorem applied at step 2 to the grids `[0, 2, 4]`
and `[0, 2, 4, 6]`. -/
theorem C1_time_grid_validator_witness :
    check_continuous_time_column (regularGrid 0 2 3) 2 = some true
    ∧ check_continuous_time_column [0, 2, 2, 4] 2 = some false
    ∧ check_continuous_time_column ((regularGrid 0 2 3).set 1 1) 2 = some false
    ∧ check_continuous_time_column ((regularGrid 0 2 4).take 1 ++ (regularGrid 0 2 4).drop 2) 2
      = some false := by
  obtain ⟨h1, h2, h3, _⟩ := C1_time_grid_validator 0 2 3 (by decide)
  obtain ⟨_, _, _, h4'⟩ := C1_time_grid_validator 0 2 4 (by decide)
  refine ⟨h1 (by decide), ?_, ?_, h4' 1 (by decide) (by decide)⟩
  · have := h2 [0] 2 [4]
    simpa using this
  · exact h3 1 1 (by decide) (by decide) (fun k => by omega)

/-! ## assert_continuous_time_column error message (dku_checks_utils.py lines 4-13) -/

/-- The `unit_name` computed at dku_checks_utils.py line 11.  The code compares
`time_granularity_step` (the step count, e.g. "1") with the string "M" — not the
granularity unit — so for every realistic step it produces "Year". -/
def unit_name_of_step (time_granularity_step : String) : String :=
  if time_granularity_step = "M" then "Month" else "Year"

/-- Error message built by `assert_continuous_time_column` (lines 4-13) when the
continuity check fails.  The step is modelled by the string it is formatted with in
`"{}{}".format(step, unit)`; a Python int step compared with "M" is likewise never
equal. -/
def assert_continuous_time_column_error_message
    (time_column_name time_granularity_unit time_granularity_step : String) : String :=
  let frequency := time_granularity_step ++ time_granularity_unit
  let error_message := "Time column " ++ time_column_name ++
    " doesn\x27t have regular time intervals of frequency " ++ frequency ++ "."
  if time_granularity_unit = "M" ∨ time_granularity_unit = "Y" then
    let unit_name := unit_name_of_step time_granularity_step
    error_message ++ "For " ++ unit_name ++ " frequency, timestamps must be end of " ++
      unit_name ++ " (for e.g. \x272020-12-31 00:00:00\x27)"
  else error_message

/-- C2: the claim is right and the code is wrong — for a month-unit frequency
(unit "M", step "1") the specialized period-end message produced by
`assert_continuous_time_column` names "Year", not "Month", because line 11 compares
the step instead of the unit with "M". -/
theorem C2_month_unit_message_names_year :
    assert_continuous_time_column_error_message "date" "M" "1"
      = "Time column date doesn\x27t have regular time intervals of frequency 1M." ++
        "For Year frequency, timestamps must be end of Year (for e.g. \x272020-12-31 00:00:00\x27)"
    ∧ unit_name_of_step "1" = "Year" := by
  exact ⟨rfl, rfl⟩

/-! ## Frame effect of validation (dku_checks_utils.py line 18) -/

/-- A pandas timestamp: a wall-clock value plus an optional timezone tag. -/
structure PdTimestamp where
  wall : Int
  tz : Option Int
deriving DecidableEq

/-- `pd.to_datetime(column).dt.tz_localize(tz=None)` applied to one timestamp:
keeps the wall-clock value, drops any timezone information. -/
def tz_localize_none (t : PdTimestamp) : PdTimestamp :=
  { wall := t.wall, tz := none }

/-- The dataframe as `check_continuous_time_column` sees it: the designated time
column plus the remaining columns (opaque payload). -/
structure DkuDataFrame where
  time_column : List PdTimestamp
  other_columns : List (String × List Int)
deriving DecidableEq

/-- `check_continuous_time_column` at dataframe level (lines 16-28): line 18 writes
`pd.to_datetime(dataframe[c]).dt.tz_localize(tz=None)` back into `dataframe[c]`, and
the continuity check then runs on the written-back column.  Returns the dataframe as
the function leaves it, paired with the check result. -/
def check_continuous_time_column_frame (df : DkuDataFrame) (step : Int) :
    DkuDataFrame × Option Bool :=
  let normalized : DkuDataFrame :=
    { df with time_column := df.time_column.map tz_localize_none }
  (normalized,
    check_continuous_time_column (normalized.time_column.map (fun t => t.wall)) step)

theorem map_tz_localize_none_of_naive (l : List PdTimestamp)
    (h : ∀ t ∈ l, t.tz = none) : l.map tz_localize_none = l := by
  induction l with
  | nil => rfl
  | cons t ts ih =>
      have ht : t.tz = none := h t (List.mem_cons_self t ts)
      have hone : tz_localize_none t = t := by
        cases t with
        | mk w z =>
            simp only at ht
            subst ht
            rfl
      rw [List.map_cons, hone, ih (fun u hu => h u (List.mem_cons_of_mem t hu))]

/-- C3 counterexample to the claim as stated: validating a dataframe whose time
column holds a timezone-aware timestamp rewrites that column in place (line 18
strips the timezone), so the dataframe is changed. -/
theorem C3_validation_mutates_tz_aware_frame :
    (check_continuous_time_column_frame ⟨[⟨0, some 60⟩], []⟩ 1).1 ≠ ⟨[⟨0, some 60⟩], []⟩ := by
  decide

/-- C3 (amended): validation leaves every non-time column unchanged and replaces the
time column by its parsed, timezone-naive normalization; in particular a dataframe
whose time column is already timezone-naive is left entirely unchanged. -/
theorem C3_validation_normalizes_time_column (df : DkuDataFrame) (step : Int) :
    (check_continuous_time_column_frame df step).1.other_columns = df.other_columns
    ∧ (check_continuous_time_column_frame df step).1.time_column
        = df.time_column.map tz_localize_none
    ∧ ((∀ t ∈ df.time_column, t.tz = none) →
        (check_continuous_time_column_frame df step).1 = df) := by
  refine ⟨rfl, rfl, ?_⟩
  intro hnaive
  have hmap := map_tz_localize_none_of_naive df.time_column hnaive
  unfold check_continuous_time_column_frame
  simp only
  rw [hmap]

/-- C3 witness: the amended theorem at a concrete timezone-naive dataframe. -/
theorem C3_validation_normalizes_time_column_witness :
    (check_continuous_time_column_frame ⟨[⟨0, none⟩, ⟨1, none⟩], [("sales", [5, 6])]⟩ 1).1
      = ⟨[⟨0, none⟩, ⟨1, none⟩], [("sales", [5, 6])]⟩ :=
  (C3_validation_normalizes_time_column ⟨[⟨0, none⟩, ⟨1, none⟩], [("sales", [5, 6])]⟩ 1).2.2
    (by decide)

/-! ## Forecast Reconstructor: history merge (gluonts_forecasts/trained_model.py 65-77) -/

/-- Join key of `_include_history`: the reconstructed calendar timestamp ("index")
together with the values of the identifier columns. -/
abbrev MergeKey := Int × List String

/-- One left row of `history_df.merge(forecasts_df, on=["index"] + identifiers_columns,
how="left", indicator=True)`: all matching forecast rows, or a single unmatched row
(the pandas indicator "both" / "left_only" is captured by `some` / `none`). -/
def mergeRow (forecasts : List (MergeKey × Int)) (h : MergeKey × Int) :
    List (MergeKey × Int × Option Int) :=
  let ms := forecasts.filter (fun f => decide (f.1 = h.1))
  if ms = [] then [(h.1, h.2, none)]
  else ms.map (fun f => (h.1, h.2, some f.2))

/-- `_include_history` (trained_model.py line 77): a left-outer join of the history
table (left side) with the forecasts table (right side) on the merge key. -/
def include_history_merge (history forecasts : List (MergeKey × Int)) :
    List (MergeKey × Int × Option Int) :=
  history.flatMap (mergeRow forecasts)

theorem mergeRow_key {forecasts : List (MergeKey × Int)} {h : MergeKey × Int}
    {y : MergeKey × Int × Option Int} (hy : y ∈ mergeRow forecasts h) :
    y.1 = h.1 ∧ y.2.1 = h.2 := by
  unfold mergeRow at hy
  by_cases hempty : forecasts.filter (fun f => decide (f.1 = h.1)) = []
  · rw [if_pos hempty, List.mem_singleton] at hy
    rw [hy]
    exact ⟨rfl, rfl⟩
  · rw [if_neg hempty, List.mem_map] at hy
    obtain ⟨f, _, hf⟩ := hy
    rw [← hf]
    exact ⟨rfl, rfl⟩

/-- C4 counterexample to the claim as stated: a forecast row whose key has no
matching history row is dropped by `_include_history` — the merge keeps history
rows, not forecast rows. -/
theorem C4_forecast_row_dropped :
    ((1 : Int), ([] : List String))
      ∉ (include_history_merge [((0, []), 5)] [((1, []), 7)]).map Prod.fst
    ∧ include_history_merge [((0, []), 5)] [((1, []), 7)] = [((0, []), 5, none)] := by
  decide

/-- C4 (amended): `_include_history` keeps exactly the history-side rows — every
(history row, matching forecast row) pair appears in the merge, and every merged
row comes from a history row; forecast rows whose key is absent from the history
table are dropped. -/
theorem C4_left_merge_semantics (history forecasts : List (MergeKey × Int)) :
    (∀ (k : MergeKey) (a b : Int), (k, a) ∈ history → (k, b) ∈ forecasts →
        (k, a, some b) ∈ include_history_merge history forecasts)
    ∧ (∀ (k : MergeKey) (a : Int) (ob : Option Int),
        (k, a, ob) ∈ include_history_merge history forecasts → (k, a) ∈ history) := by
  constructor
  · intro k a b hh hf
    rw [include_history_merge, List.mem_flatMap]
    refine ⟨(k, a), hh, ?_⟩
    unfold mergeRow
    have hmem : (k, b) ∈ forecasts.filter (fun f => decide (f.1 = (k, a).1)) := by
      rw [List.mem_filter]
      exact ⟨hf, by simp⟩
    have hne : forecasts.filter (fun f => decide (f.1 = (k, a).1)) ≠ [] := by
      intro hempty
      rw [hempty] at hmem
      exact List.not_mem_nil _ hmem
    rw [if_neg hne, List.mem_map]
    exact ⟨(k, b), hmem, rfl⟩
  · intro k a ob hy
    rw [include_history_merge, List.mem_flatMap] at hy
    obtain ⟨h, hh, hrow⟩ := hy
    obtain ⟨h1, h2⟩ := mergeRow_key hrow
    simp only at h1 h2
    have hka : (k, a) = h := by
      rw [h1, h2]
    rw [hka]
    exact hh

/-- C4 witness: the amended theorem at a one-row history and a matching and a
non-matching forecast row. -/
theorem C4_left_merge_semantics_witness :
    ((0, []), 5, some 7) ∈ include_history_merge [((0, []), 5)] [((0, []), 7)] :=
  (C4_left_merge_semantics [((0, []), 5)] [((0, []), 7)]).1
    (0, []) 5 7 (by decide) (by decide)

/-! ## TrainedModel construction (gluonts_forecasts/trained_model.py 27-36, 229-232) -/

/-- `TrainedModel.__init__` restricted to what it computes from the horizon
arguments (lines 30 and 36): resolve the `-1` sentinel to the predictor's trained
prediction length, then run `_check` (lines 229-232), which raises when the
predictor's trained length is smaller than the resolved length. -/
def trained_model_init (predictor_prediction_length prediction_length : Int) :
    Except String Int :=
  let resolved :=
    if prediction_length = -1 then predictor_prediction_length else prediction_length
  if predictor_prediction_length < resolved then
    Except.error
      ("Please choose a forecasting horizon lower or equal to the one chosen when training: "
        ++ toString predictor_prediction_length)
  else Except.ok resolved

/-- C5: for every predictor with a positive trained prediction length, requesting a
prediction length strictly greater than the trained one makes construction fail with
the configuration error naming the trained maximum, before any prediction is
attempted (the check is part of construction); requesting a length less than or
equal to the trained one succeeds. -/
theorem C5_horizon_checked_at_construction (plen req : Int) (hpos : 0 < plen) :
    (plen < req →
      trained_model_init plen req = Except.error
        ("Please choose a forecasting horizon lower or equal to the one chosen when training: "
          ++ toString plen))
    ∧ (req ≤ plen → ∃ resolved, trained_model_init plen req = Except.ok resolved) := by
  constructor
  · intro hgt
    have hne : req ≠ -1 := by omega
    unfold trained_model_init
    rw [if_neg hne, if_pos hgt]
  · intro hle
    unfold trained_model_init
    by_cases hsent : req = -1
    · rw [if_pos hsent, if_neg (by omega)]
      exact ⟨plen, rfl⟩
    · rw [if_neg hsent, if_neg (by omega)]
      exact ⟨req, rfl⟩

/-- C5 witness: a predictor trained with horizon 2 rejects a requested horizon 5 at
construction and accepts a requested horizon 1. -/
theorem C5_horizon_checked_at_construction_witness :
    trained_model_init 2 5 = Except.error
      ("Please choose a forecasting horizon lower or equal to the one chosen when training: "
        ++ toString (2 : Int))
    ∧ ∃ resolved, trained_model_init 2 1 = Except.ok resolved :=
  ⟨(C5_horizon_checked_at_construction 2 5 (by decide)).1 (by decide),
   (C5_horizon_checked_at_construction 2 1 (by decide)).2 (by decide)⟩

/-- C10: the sentinel `-1` resolves the effective prediction length to the
predictor's trained prediction length and the construction-time horizon check then
always passes; any other requested value is used as given (and succeeds whenever it
does not exceed the trained length). -/
theorem C10_sentinel_prediction_length (plen req : Int) :
    trained_model_init plen (-1) = Except.ok plen
    ∧ (req ≠ -1 → req ≤ plen → trained_model_init plen req = Except.ok req) := by
  constructor
  · unfold trained_model_init
    rw [if_pos rfl, if_neg (by omega)]
  · intro hne hle
    unfold trained_model_init
    rw [if_neg hne, if_neg (by omega)]

/-- C10 witness: the sentinel at trained length 3, and the explicit value 2. -/
theorem C10_sentinel_prediction_length_witness :
    trained_model_init 3 (-1) = Except.ok 3
    ∧ trained_model_init 3 2 = Except.ok 2 :=
  ⟨(C10_sentinel_prediction_length 3 2).1,
   (C10_sentinel_prediction_length 3 2).2 (by decide) (by decide)⟩

/-! ## External Feature Aligner (gluonts_forecasts/utils.py 27-69) -/

/-- A row of the future-features table: a timestamp, the identifier column values,
and the external-feature values. -/
structure FutureRow where
  time : Int
  ids : List (String × String)
  feats : List Int
deriving DecidableEq

def insertSortedByTime (x : FutureRow) : List FutureRow → List FutureRow
  | [] => [x]
  | y :: ys => if x.time ≤ y.time then x :: y :: ys else y :: insertSortedByTime x ys

/-- Sorting the future slice by its time column (part of the normalization the spec
describes for the preparation step). -/
def sortByTime (rows : List FutureRow) : List FutureRow :=
  rows.foldr insertSortedByTime []

/-- Modelled from the spec: the Time Grid Validator acceptance condition of spec
section 4.1 — "the sequence is exactly the regular grid generated by stepping from
its first timestamp at the given frequency for its length" (vacuously true of the
empty sequence). -/
def spec_time_grid_valid (ts : List Int) (step : Int) : Bool :=
  decide (ts = regularGrid (ts.headD 0) step ts.length)

/-- Modelled from the spec: `prepare_timeseries_dataframe`
(`gluonts_forecasts/timeseries_preparation.py`, which is not under src/) — spec
section 4.3: a "normalization step that parses/sorts the time column" which
"re-validates the filtered future slice against the Time Grid Validator at
`frequency`", raising a continuity error when the sorted time column is not a
regular grid at the given frequency. -/
def prepare_timeseries_dataframe (rows : List FutureRow) (step : Int) :
    Except String (List FutureRow) :=
  let sorted := sortByTime rows
  if spec_time_grid_valid (sorted.map (fun r => r.time)) step then Except.ok sorted
  else Except.error
    "The time column does not have regular time intervals of the training frequency"

/-- The identifier filtering of `add_future_external_features` (utils.py 46-52):
keep the rows that match the record's value on every identifier column; with no
identifiers key (and, via `apply_filter_conditions` line 19, with an empty
condition list) the whole table is kept. -/
def filterByIdentifiers (identifiers : Option (List (String × String)))
    (future_df : List FutureRow) : List FutureRow :=
  match identifiers with
  | some idents =>
      future_df.filter (fun r => idents.all (fun kv => decide (r.ids.lookup kv.1 = some kv.2)))
  | none => future_df

/-- The horizon-mismatch error message of utils.py line 63. -/
def horizon_mismatch_message (prediction_length : Nat) : String :=
  "Please provide " ++ toString prediction_length ++
    " future values of external features, as this was the forecasting horizon used for training"

/-- `add_future_external_features` (utils.py 43-69) restricted to one timeseries
record: filter the future table to the record's identifiers, normalize and
re-validate the slice, then require its row count (the time dimension of the
transposed feature array, line 62) to be exactly `prediction_length`. -/
def add_future_external_features_record (identifiers : Option (List (String × String)))
    (future_df : List FutureRow) (prediction_length : Nat) (step : Int) :
    Except String (List FutureRow) :=
  let filtered := filterByIdentifiers identifiers future_df
  match prepare_timeseries_dataframe filtered step with
  | Except.error e => Except.error e
  | Except.ok prepared =>
      if prepared.length ≠ prediction_length then
        Except.error (horizon_mismatch_message prediction_length)
      else Except.ok prepared

theorem insertSortedByTime_length (x : FutureRow) (l : List FutureRow) :
    (insertSortedByTime x l).length = l.length + 1 := by
  induction l with
  | nil => rfl
  | cons y ys ih =>
      unfold insertSortedByTime
      by_cases hxy : x.time ≤ y.time
      · rw [if_pos hxy]
        rfl
      · rw [if_neg hxy, List.length_cons, ih, List.length_cons]

theorem sortByTime_length (rows : List FutureRow) :
    (sortByTime rows).length = rows.length := by
  unfold sortByTime
  induction rows with
  | nil => rfl
  | cons r rs ih => rw [List.foldr_cons, insertSortedByTime_length, ih, List.length_cons]

/-- C6 counterexample to the claim as stated: a filtered slice of 3 rows at the
irregular times [0, 5, 7] with `prediction_length = 2` does not have exactly
`prediction_length` rows, yet the call fails with the continuity error of the
(spec-modelled) preparation step — not with the horizon-mismatch error naming 2. -/
theorem C6_continuity_error_precedes_horizon_error :
    add_future_external_features_record none [⟨0, [], []⟩, ⟨5, [], []⟩, ⟨7, [], []⟩] 2 1
      = Except.error
        "The time column does not have regular time intervals of the training frequency"
    ∧ add_future_external_features_record none [⟨0, [], []⟩, ⟨5, [], []⟩, ⟨7, [], []⟩] 2 1
      ≠ Except.error (horizon_mismatch_message 2) := by
  decide

/-- C6 (amended): whenever the filtered future slice passes the continuity
re-validation (as the empty slice trivially does) and its row count differs from
`prediction_length`, `add_future_external_features` raises the horizon-mismatch
ValueError naming `prediction_length`; in particular a future table with no rows
for the record's identifier group fails this way for every positive
`prediction_length`.  A slice failing the continuity re-validation raises the
continuity error instead. -/
theorem C6_horizon_mismatch (identifiers : Option (List (String × String)))
    (future_df : List FutureRow) (prediction_length : Nat) (step : Int) :
    (spec_time_grid_valid
        ((sortByTime (filterByIdentifiers identifiers future_df)).map (fun r => r.time))
        step = true →
      (filterByIdentifiers identifiers future_df).length ≠ prediction_length →
      add_future_external_features_record identifiers future_df prediction_length step
        = Except.error (horizon_mismatch_message prediction_length))
    ∧ (filterByIdentifiers identifiers future_df = [] → 0 < prediction_length →
      add_future_external_features_record identifiers future_df prediction_length step
        = Except.error (horizon_mismatch_message prediction_length)) := by
  have hmain : spec_time_grid_valid
        ((sortByTime (filterByIdentifiers identifiers future_df)).map (fun r => r.time))
        step = true →
      (filterByIdentifiers identifiers future_df).length ≠ prediction_length →
      add_future_external_features_record identifiers future_df prediction_length step
        = Except.error (horizon_mismatch_message prediction_length) := by
    intro hvalid hlen
    have hprep : prepare_timeseries_dataframe (filterByIdentifiers identifiers future_df) step
        = Except.ok (sortByTime (filterByIdentifiers identifiers future_df)) := by
      unfold prepare_timeseries_dataframe
      rw [if_pos hvalid]
    have hlen' : (sortByTime (filterByIdentifiers identifiers future_df)).length
        ≠ prediction_length := by
      rw [sortByTime_length]
      exact hlen
    simp only [add_future_external_features_record]
    rw [hprep]
    show (if (sortByTime (filterByIdentifiers identifiers future_df)).length ≠ prediction_length
        then Except.error (horizon_mismatch_message prediction_length)
        else Except.ok (sortByTime (filterByIdentifiers identifiers future_df)))
      = Except.error (horizon_mismatch_message prediction_length)
    rw [if_pos hlen']
  refine ⟨hmain, fun hempty hpos => hmain ?_ ?_⟩
  · rw [hempty]
    rfl
  · rw [hempty]
    intro hc
    simp at hc
    omega

/-- C6 witness: a record whose identifier value has no matching rows in the future
table raises the horizon-mismatch error naming the expected length 2. -/
theorem C6_horizon_mismatch_witness :
    add_future_external_features_record (some [("store", "A")])
      [⟨0, [("store", "B")], [1]⟩] 2 1
      = Except.error (horizon_mismatch_message 2) := by
  apply (C6_horizon_mismatch (some [("store", "A")]) [⟨0, [("store", "B")], [1]⟩] 2 1).2
  · decide
  · decide

/-! ## External features consistency (dku_checks_utils.py 31-61) -/

/-- The training-sample fields that `external_features_check` consults: the time
column name, the external-feature column names when training used external
features, and the identifier column names when present. -/
structure TrainDataSample where
  time_column_name : String
  feat_dynamic_real_columns_names : Option (List String)
  identifiers : Option (List String)
deriving DecidableEq

/-- Negation of Python `set(a) != set(b)`: the two column lists contain the same
names. -/
def sameColumnSet (a b : List String) : Bool :=
  a.all (fun x => b.contains x) && b.all (fun x => a.contains x)

/-- `external_features_future_dataset_schema_check` (lines 31-41): the future
dataset's columns must be exactly time column + training feature columns +
identifier keys. -/
def external_features_future_dataset_schema_check (time_column_name : String)
    (feat_columns : List String) (identifiers : Option (List String))
    (future_columns : List String) : Except String Unit :=
  let expected_columns := [time_column_name] ++ feat_columns ++ identifiers.getD []
  if sameColumnSet future_columns expected_columns then Except.ok ()
  else Except.error
    ("The dataset of future values of external features must contains exactly the following columns: "
      ++ toString expected_columns)

/-- The error message of line 55 (future features omitted although required). -/
def must_provide_future_msg : String :=
  "You must provide a dataset of future values of external features."

/-- The error message of lines 57-60 (future features provided although unused);
the triple-quoted whitespace of the Python literal is normalized to single
spaces. -/
def unused_external_features_msg : String :=
  "A dataset of future values of external features was provided, but no external features were used during training for the selected model. Remove this dataset from the recipe inputs or select a model that used external features during training."

/-- `external_features_check` (lines 44-61): a future dataset must be provided iff
training used external features; returns whether external features are needed for
prediction. -/
def external_features_check (sample : TrainDataSample)
    (external_features_future_dataset : Option (List String)) : Except String Bool :=
  match sample.feat_dynamic_real_columns_names, external_features_future_dataset with
  | some feat_columns, some future_columns =>
      match external_features_future_dataset_schema_check sample.time_column_name
          feat_columns sample.identifiers future_columns with
      | Except.error e => Except.error e
      | Except.ok _ => Except.ok true
  | some _, none => Except.error must_provide_future_msg
  | none, some _ => Except.error unused_external_features_msg
  | none, none => Except.ok false

/-- C7: the external-features iff-consistency — training-used-but-omitted and
provided-but-unused each raise their own error, and the two messages are distinct;
both present passes the schema check and returns true; both absent returns
false. -/
theorem C7_external_features_iff_consistency (sample : TrainDataSample)
    (feat_columns future_columns : List String) :
    (sample.feat_dynamic_real_columns_names = some feat_columns →
      external_features_check sample none = Except.error must_provide_future_msg)
    ∧ (sample.feat_dynamic_real_columns_names = none →
      external_features_check sample (some future_columns)
        = Except.error unused_external_features_msg)
    ∧ (sample.feat_dynamic_real_columns_names = some feat_columns →
      sameColumnSet future_columns
          ([sample.time_column_name] ++ feat_columns ++ sample.identifiers.getD []) = true →
      external_features_check sample (some future_columns) = Except.ok true)
    ∧ (sample.feat_dynamic_real_columns_names = none →
      external_features_check sample none = Except.ok false)
    ∧ must_provide_future_msg ≠ unused_external_features_msg := by
  refine ⟨?_, ?_, ?_, ?_, by decide⟩
  · intro hfeat
    unfold external_features_check
    rw [hfeat]
  · intro hnone
    unfold external_features_check
    rw [hnone]
  · intro hfeat hschema
    unfold external_features_check
    rw [hfeat]
    unfold external_features_future_dataset_schema_check
    simp only
    rw [if_pos hschema]
  · intro hnone
    unfold external_features_check
    rw [hnone]

/-- C7 witness: the four behaviors at concrete training samples. -/
theorem C7_external_features_iff_consistency_witness :
    external_features_check ⟨"date", some ["price"], none⟩ none
      = Except.error must_provide_future_msg
    ∧ external_features_check ⟨"date", none, none⟩ (some ["date"])
      = Except.error unused_external_features_msg
    ∧ external_features_check ⟨"date", some ["price"], none⟩ (some ["price", "date"])
      = Except.ok true
    ∧ external_features_check ⟨"date", none, none⟩ none = Except.ok false := by
  obtain ⟨h1, _, h3, _, _⟩ :=
    C7_external_features_iff_consistency ⟨"date", some ["price"], none⟩ ["price"]
      ["price", "date"]
  obtain ⟨_, h2', _, h4', _⟩ :=
    C7_external_features_iff_consistency ⟨"date", none, none⟩ [] ["date"]
  exact ⟨h1 rfl, h2' rfl, h3 rfl (by decide), h4' rfl⟩

/-! ## Dataset Builder cut_length (gluonts_forecasts/gluon_dataset.py 35-45, 101-116) -/

/-- Python slicing `xs[:stop]` for an integer stop (as in `iloc[:stop]` on a
column): a nonnegative stop takes from the front, a negative stop removes the last
`-stop` elements. -/
def pySliceStop {α : Type} (xs : List α) (stop : Int) : List α :=
  if 0 ≤ stop then xs.take stop.toNat else xs.take ((xs.length : Int) + stop).toNat

/-- `iloc[:length]` where `length` is `None` or an integer
(`_create_gluon_univariate_timeseries`, lines 103 and 108). -/
def ilocStop {α : Type} (xs : List α) (length : Option Int) : List α :=
  match length with
  | none => xs
  | some stop => pySliceStop xs stop

/-- `length = -cut_length if cut_length else None` (`create_list_dataset`, line 45):
a missing or zero (falsy) cut_length means no truncation. -/
def cut_length_to_length (cut_length : Option Nat) : Option Int :=
  match cut_length with
  | none => none
  | some k => if k = 0 then none else some (-(k : Int))

/-- The per-series record built by `_create_gluon_univariate_timeseries`
(gluon_dataset.py 101-116): `start` is the first time value, `target` the sliced
target column, external features the sliced feature columns transposed to
features × time. -/
structure UnivariateTimeseries where
  start : Int
  target : List Int
  target_name : String
  time_column_name : String
  feat_dynamic_real : Option (List (List Int))
  feat_dynamic_real_columns_names : Option (List String)
  identifiers : Option (List (String × String))
deriving DecidableEq

/-- `_create_gluon_univariate_timeseries` over column-oriented data: `time_col` is
the time column, `target_col` the target column and `external_features_columns` the
named feature columns, when present. -/
def create_gluon_univariate_timeseries (time_col : List Int) (time_column_name : String)
    (target_col : List Int) (target_name : String)
    (external_features_columns : Option (List (String × List Int)))
    (length : Option Int) (identifiers : Option (List (String × String))) :
    UnivariateTimeseries :=
  { start := time_col.headD 0
    target := ilocStop target_col length
    target_name := target_name
    time_column_name := time_column_name
    feat_dynamic_real :=
      external_features_columns.map (fun cols => cols.map (fun c => ilocStop c.2 length))
    feat_dynamic_real_columns_names :=
      external_features_columns.map (fun cols => cols.map (fun c => c.1))
    identifiers := identifiers }

theorem pySliceStop_neg {α : Type} (xs : List α) (k : Nat) (hk : 0 < k) :
    pySliceStop xs (-(k : Int)) = xs.take (xs.length - k) := by
  unfold pySliceStop
  rw [if_neg (by omega)]
  congr 1
  rw [show (xs.length : Int) + -(k : Int) = (xs.length : Int) - (k : Int) by ring,
    Int.toNat_sub]

theorem ilocStop_cut {α : Type} (xs : List α) (k : Nat) (hk : 0 < k) :
    ilocStop xs (cut_length_to_length (some k)) = xs.take (xs.length - k) := by
  show ilocStop xs (if k = 0 then none else some (-(k : Int))) = xs.take (xs.length - k)
  rw [if_neg (by omega)]
  exact pySliceStop_neg xs k hk

/-- C8: a positive `cut_length` k at most the series length truncates exactly the
last k steps — the emitted target is the first (length − k) values of the target
column and each external-feature row is likewise cut to its first (length − k)
values; `cut_length` equal to the full series length yields an empty target array,
and the builder is a total function, so it cannot raise on that boundary. -/
theorem C8_cut_length_truncates (time_col target_col : List Int)
    (time_column_name target_name : String)
    (feature_columns : List (String × List Int))
    (identifiers : Option (List (String × String)))
    (k : Nat) (hk0 : 0 < k) (hkn : k ≤ target_col.length) :
    (create_gluon_univariate_timeseries time_col time_column_name target_col target_name
        (some feature_columns) (cut_length_to_length (some k)) identifiers).target
      = target_col.take (target_col.length - k)
    ∧ (create_gluon_univariate_timeseries time_col time_column_name target_col target_name
        (some feature_columns) (cut_length_to_length (some k)) identifiers).feat_dynamic_real
      = some (feature_columns.map (fun c => c.2.take (c.2.length - k)))
    ∧ (k = target_col.length →
      (create_gluon_univariate_timeseries time_col time_column_name target_col target_name
          (some feature_columns) (cut_length_to_length (some k)) identifiers).target = []) := by
  have htarget : (create_gluon_univariate_timeseries time_col time_column_name target_col
      target_name (some feature_columns) (cut_length_to_length (some k)) identifiers).target
      = target_col.take (target_col.length - k) := ilocStop_cut target_col k hk0
  refine ⟨htarget, ?_, ?_⟩
  · show some (feature_columns.map (fun c => ilocStop c.2 (cut_length_to_length (some k))))
      = some (feature_columns.map (fun c => c.2.take (c.2.length - k)))
    have hfun : (fun c : String × List Int => ilocStop c.2 (cut_length_to_length (some k)))
        = (fun c : String × List Int => c.2.take (c.2.length - k)) :=
      funext (fun c => ilocStop_cut c.2 k hk0)
    rw [hfun]
  · intro hfull
    rw [htarget, ← hfull, Nat.sub_self, List.take_zero]

/-- C8 witness: cutting 3 of 3 values empties the target without failing; cutting 1
keeps the first 2 values. -/
theorem C8_cut_length_truncates_witness :
    (create_gluon_univariate_timeseries [0, 1, 2] "date" [10, 11, 12] "sales"
        (some [("price", [5, 6, 7])]) (cut_length_to_length (some 3)) none).target = []
    ∧ (create_gluon_univariate_timeseries [0, 1, 2] "date" [10, 11, 12] "sales"
        (some [("price", [5, 6, 7])]) (cut_length_to_length (some 1)) none).target
      = [10, 11] := by
  constructor
  · exact (C8_cut_length_truncates [0, 1, 2] [10, 11, 12] "date" "sales"
      [("price", [5, 6, 7])] none 3 (by decide) (by decide)).2.2 (by decide)
  · have h := (C8_cut_length_truncates [0, 1, 2] [10, 11, 12] "date" "sales"
      [("price", [5, 6, 7])] none 1 (by decide) (by decide)).1
    rw [h]
    decide

/-! ## Confidence interval descriptions (trained_model.py 216-227, 250-263) -/

/-- Python `round` on a rational: round-half-to-even (banker's rounding). -/
def bankersRound (q : ℚ) : Int :=
  let f := ⌊q⌋
  let frac := q - (f : ℚ)
  if frac < 1/2 then f
  else if 1/2 < frac then f + 1
  else if 2 ∣ f then f else f + 1

/-- Python `round(x, 2)`: banker's rounding at two decimal places. -/
def round2 (q : ℚ) : ℚ := (bankersRound (q * 100) : ℚ) / 100

/-- Python `min` over a list (raises on an empty list; quantiles are nonempty in
use, and the 0 default is never read by the claims below). -/
def listMin : List ℚ → ℚ
  | [] => 0
  | x :: xs => xs.foldl min x

/-- Python `max` over a list, mirroring `listMin`. -/
def listMax : List ℚ → ℚ
  | [] => 0
  | x :: xs => xs.foldl max x

/-- `_retrieve_confidence_interval` (trained_model.py 250-263): the confidence
percentage is `round((max − min) * 100)`; the Bool records whether the asymmetry
warning `round((1 − max) * 100, 2) != round(min * 100, 2)` fires — the code only
logs it and continues. -/
def retrieve_confidence_interval (quantiles : List ℚ) : Int × Bool :=
  let lower_quantile := listMin quantiles
  let upper_quantile := listMax quantiles
  let confidence_interval := bankersRound ((upper_quantile - lower_quantile) * 100)
  let warned :=
    decide (round2 ((1 - upper_quantile) * 100) ≠ round2 (lower_quantile * 100))
  (confidence_interval, warned)

/-- Bool test: the first list is a prefix of the second. -/
def charsPrefix : List Char → List Char → Bool
  | [], _ => true
  | _ :: _, [] => false
  | p :: ps, c :: cs => (p == c) && charsPrefix ps cs

/-- Bool test: the second list occurs as a contiguous sublist of the first. -/
def charsContains : List Char → List Char → Bool
  | [], pat => pat.isEmpty
  | c :: rest, pat => charsPrefix pat (c :: rest) || charsContains rest pat

/-- Python `pat in s` on strings. -/
def strContains (s pat : String) : Bool :=
  charsContains s.data pat.data

/-- The description attached to one forecasts column
(`create_forecasts_column_description`, trained_model.py 220-226). -/
def forecast_column_description (confidence_interval : Int) (column : String) :
    Option String :=
  if strContains column "forecast_lower_" = true then
    some ("Lower bound of the " ++ toString confidence_interval
      ++ "% forecasts confidence interval.")
  else if strContains column "forecast_upper_" = true then
    some ("Upper bound of the " ++ toString confidence_interval
      ++ "% forecasts confidence interval.")
  else if strContains column "forecast_" = true then
    some "Median of probabilistic forecasts"
  else none

/-- `create_forecasts_column_description` (trained_model.py 216-227): the
descriptions added for the forecasts columns, as (column, description) pairs. -/
def create_forecasts_column_description (quantiles : List ℚ) (columns : List String) :
    List (String × String) :=
  let confidence_interval := (retrieve_confidence_interval quantiles).1
  columns.foldl (fun acc column =>
    match forecast_column_description confidence_interval column with
    | some d => acc ++ [(column, d)]
    | none => acc) []

/-- C9: the confidence percentage written into the forecast_lower_/forecast_upper_
column descriptions is round((max_quantile − min_quantile) * 100); asymmetry of the
quantiles around 0.5 — compared via 2-decimal rounding of 1 − max against min — only
sets the warning flag, and the returned descriptions depend on min and max alone,
so they are identical whether or not the warning fires. -/
theorem C9_confidence_interval_descriptions (quantiles : List ℚ) (columns : List String) :
    (∀ column : String, strContains column "forecast_lower_" = true →
      forecast_column_description (retrieve_confidence_interval quantiles).1 column
        = some ("Lower bound of the "
            ++ toString (bankersRound ((listMax quantiles - listMin quantiles) * 100))
            ++ "% forecasts confidence interval."))
    ∧ (∀ column : String, strContains column "forecast_upper_" = true →
          strContains column "forecast_lower_" = false →
      forecast_column_description (retrieve_confidence_interval quantiles).1 column
        = some ("Upper bound of the "
            ++ toString (bankersRound ((listMax quantiles - listMin quantiles) * 100))
            ++ "% forecasts confidence interval."))
    ∧ (retrieve_confidence_interval quantiles).2
        = decide (round2 ((1 - listMax quantiles) * 100)
            ≠ round2 (listMin quantiles * 100))
    ∧ (∀ qs2 : List ℚ, listMin qs2 = listMin quantiles → listMax qs2 = listMax quantiles →
      create_forecasts_column_description qs2 columns
        = create_forecasts_column_description quantiles columns) := by
  have hci : (retrieve_confidence_interval quantiles).1
      = bankersRound ((listMax quantiles - listMin quantiles) * 100) := rfl
  refine ⟨?_, ?_, rfl, ?_⟩
  · intro column h
    rw [hci]
    unfold forecast_column_description
    rw [if_pos h]
  · intro column hupper hlower
    rw [hci]
    unfold forecast_column_description
    rw [if_neg (by rw [hlower]; exact Bool.false_ne_true), if_pos hupper]
  · intro qs2 hmin hmax
    have hsame : (retrieve_confidence_interval qs2).1
        = (retrieve_confidence_interval quantiles).1 := by
      rw [hci]
      show bankersRound ((listMax qs2 - listMin qs2) * 100)
        = bankersRound ((listMax quantiles - listMin quantiles) * 100)
      rw [hmin, hmax]
    unfold create_forecasts_column_description
    rw [hsame]

/-- C9 witness: quantiles [0.1, 0.5, 0.9] give an 80% confidence interval in the
lower-bound column description (Scenario D of the spec). -/
theorem C9_confidence_interval_descriptions_witness :
    forecast_column_description
        (retrieve_confidence_interval [(1 : ℚ)/10, 1/2, 9/10]).1 "forecast_lower_sales"
      = some "Lower bound of the 80% forecasts confidence interval." := by
  have h := (C9_confidence_interval_descriptions [(1 : ℚ)/10, 1/2, 9/10] []).1
    "forecast_lower_sales" (by decide)
  rw [h]
  have hmin : listMin [(1 : ℚ)/10, 1/2, 9/10] = 1/10 := by
    show min (min ((1 : ℚ)/10) (1/2)) (9/10) = 1/10
    rw [min_eq_left (show (1 : ℚ)/10 ≤ 1/2 by norm_num),
      min_eq_left (show (1 : ℚ)/10 ≤ 9/10 by norm_num)]
  have hmax : listMax [(1 : ℚ)/10, 1/2, 9/10] = 9/10 := by
    show max (max ((1 : ℚ)/10) (1/2)) (9/10) = 9/10
    rw [max_eq_right (show (1 : ℚ)/10 ≤ 1/2 by norm_num),
      max_eq_right (show (1 : ℚ)/2 ≤ 9/10 by norm_num)]
  rw [hmin, hmax, show ((9 : ℚ)/10 - 1/10) * 100 = 80 by norm_num]
  have hfloor : ⌊(80 : ℚ)⌋ = 80 := by norm_num
  have hround : bankersRound (80 : ℚ) = 80 := by
    simp only [bankersRound]
    rw [hfloor]
    rw [if_pos (by norm_num)]
  rw [hround]
  rfl
